import Mathlib

/-!
Shallow embedding of the `indicators` package (src/indicators/indicators.go) of
the gotrade repository: the base abstraction layer for streaming numeric
indicators over financial bar data.

Modelling conventions:
  - Go `int` is modelled as `ℤ` (no claim exercises machine overflow of the
    bookkeeping counters).
  - Go `float64` values appearing here (the bounds seeds and emitted values)
    are modelled by their exact rational values in `ℚ`; comparison of finite
    floats agrees with the rational order on their exact values, and the
    constants `math.MaxFloat64` and `math.SmallestNonzeroFloat64` are exact
    rationals.
  - Go `int64` values are modelled as `ℤ` together with the range predicate
    `isInt64`; `math.MaxInt64` and `math.MinInt64` are exact integers.
  - A Go function that cannot fail becomes a total Lean function; a fallible
    construction becomes `Except`.
-/

/-- Process-wide configuration: `MinimumLookbackPeriod int = 0` (source line 43). -/
def MinimumLookbackPeriod : ℤ := 0

/-- Process-wide configuration: `MaximumLookbackPeriod int = 100000` (source line 45). -/
def MaximumLookbackPeriod : ℤ := 100000

/-- The four named error values of the taxonomy (source lines 37-40),
modelled as an enumeration of sentinel conditions. -/
inductive IndicatorError where
  | ErrSourceDataEmpty
  | ErrNotEnoughSourceDataForLookbackPeriod
  | ErrLookbackPeriodMustBeGreaterThanZero
  | ErrValueAvailableActionIsNil
  deriving DecidableEq

/-- Exact rational value of Go `math.MaxFloat64 = (2 - 2^-52) * 2^1023
= (2^53 - 1) * 2^971`, the largest finite `float64`. -/
def maxFloat64 : ℚ := (2 ^ 53 - 1) * 2 ^ 971

/-- Exact rational value of Go `math.SmallestNonzeroFloat64 = 2^-1074`,
the smallest positive (denormal) `float64`.  Note: this value is positive. -/
def smallestNonzeroFloat64 : ℚ := 1 / 2 ^ 1074

/-- Go `math.MaxInt64 = 2^63 - 1`. -/
def maxInt64 : ℤ := 2 ^ 63 - 1

/-- Go `math.MinInt64 = -2^63`. -/
def minInt64 : ℤ := -(2 ^ 63)

/-- The exact rational values of the finite `float64` numbers: sign-magnitude
significand of at most 53 bits scaled by a power of two with unbiased scale
exponent in `[-1074, 971]` (denormals included).  `maxFloat64` and
`smallestNonzeroFloat64` are the extreme members (see the C2 theorem). -/
def isFiniteFloat64 (q : ℚ) : Prop :=
  ∃ m e : ℤ, |m| ≤ 2 ^ 53 - 1 ∧ -1074 ≤ e ∧ e ≤ 971 ∧ q = (m : ℚ) * (2 : ℚ) ^ e

/-- The values representable in Go `int64`. -/
def isInt64 (n : ℤ) : Prop := minInt64 ≤ n ∧ n ≤ maxInt64

/-- `type baseFloatBounds struct { minValue float64; maxValue float64 }`
(source lines 75-78). -/
structure baseFloatBounds where
  minValue : ℚ
  maxValue : ℚ

/-- `newBaseFloatBounds` (source lines 80-83): seeds
`minValue: math.MaxFloat64, maxValue: math.SmallestNonzeroFloat64`. -/
def newBaseFloatBounds : baseFloatBounds :=
  { minValue := maxFloat64, maxValue := smallestNonzeroFloat64 }

/-- `func (ind *baseFloatBounds) MinValue() float64` (source lines 85-87). -/
def baseFloatBounds.MinValue (ind : baseFloatBounds) : ℚ := ind.minValue

/-- `func (ind *baseFloatBounds) MaxValue() float64` (source lines 89-91). -/
def baseFloatBounds.MaxValue (ind : baseFloatBounds) : ℚ := ind.maxValue

/-- Modelled from the spec: the bounds update rule is not in the source tree
(only the tracker struct, its constructor and its accessors are); per spec
section 4.2 it is "Update rule invoked once per emitted value `v`:
`min = v if v < min else min`; `max = v if v > max else max`". -/
def baseFloatBounds.update (ind : baseFloatBounds) (v : ℚ) : baseFloatBounds :=
  { minValue := if v < ind.minValue then v else ind.minValue
    maxValue := if v > ind.maxValue then v else ind.maxValue }

/-- `type baseIntBounds struct { minValue int64; maxValue int64 }`
(source lines 93-96). -/
structure baseIntBounds where
  minValue : ℤ
  maxValue : ℤ

/-- `newBaseIntBounds` (source lines 98-101): seeds
`minValue: math.MaxInt64, maxValue: math.MinInt64`. -/
def newBaseIntBounds : baseIntBounds :=
  { minValue := maxInt64, maxValue := minInt64 }

/-- `func (ind *baseIntBounds) MinValue() int64` (source lines 103-105). -/
def baseIntBounds.MinValue (ind : baseIntBounds) : ℤ := ind.minValue

/-- `func (ind *baseIntBounds) MaxValue() int64` (source lines 107-109). -/
def baseIntBounds.MaxValue (ind : baseIntBounds) : ℤ := ind.maxValue

/-- Modelled from the spec: integer flavour of the section 4.2 update rule
(see `baseFloatBounds.update`). -/
def baseIntBounds.update (ind : baseIntBounds) (v : ℤ) : baseIntBounds :=
  { minValue := if v < ind.minValue then v else ind.minValue
    maxValue := if v > ind.maxValue then v else ind.maxValue }

/-- Modelled from the spec: `gotrade.DOHLCV`, one financial bar
(open/high/low/close/volume per period, spec section 1); the gotrade package
itself is outside the source tree.  The claims only need it as an opaque
record of scalar fields. -/
structure DOHLCV where
  o : ℚ
  h : ℚ
  l : ℚ
  c : ℚ
  v : ℚ

/-- Modelled from the spec: `gotrade.DataSelectionFunc`, a pure function from
one bar to one scalar (spec section 4.5); declared outside the source tree. -/
def DataSelectionFunc := DOHLCV → ℚ

/-- `type baseIndicator struct { validFromBar int; dataLength int;
selectData gotrade.DataSelectionFunc; lookbackPeriod int }`
(source lines 111-116).  The nilable Go function field becomes `Option`. -/
structure baseIndicator where
  validFromBar : ℤ
  dataLength : ℤ
  selectData : Option DataSelectionFunc
  lookbackPeriod : ℤ

/-- `newBaseIndicator(lookbackPeriod int)` (source lines 118-121): sets only
`lookbackPeriod` and `validFromBar: -1`; `dataLength` and `selectData` take
the Go zero values `0` and `nil`.  No validation, no failure path. -/
def newBaseIndicator (lookbackPeriod : ℤ) : baseIndicator :=
  { validFromBar := -1
    dataLength := 0
    selectData := none
    lookbackPeriod := lookbackPeriod }

/-- `func (ind *baseIndicator) ValidFromBar() int` (source lines 123-125). -/
def baseIndicator.ValidFromBar (ind : baseIndicator) : ℤ := ind.validFromBar

/-- `func (ind *baseIndicator) GetLookbackPeriod() int` (source lines 127-129). -/
def baseIndicator.GetLookbackPeriod (ind : baseIndicator) : ℤ := ind.lookbackPeriod

/-- `func (ind *baseIndicator) Length() int` (source lines 131-133). -/
def baseIndicator.Length (ind : baseIndicator) : ℤ := ind.dataLength

/-- `type baseIndicatorWithTimePeriod struct { timePeriod int }`
(source lines 135-137). -/
structure baseIndicatorWithTimePeriod where
  timePeriod : ℤ

/-- `newBaseIndicatorWithTimePeriod(timePeriod int)` (source lines 163-166). -/
def newBaseIndicatorWithTimePeriod (timePeriod : ℤ) : baseIndicatorWithTimePeriod :=
  { timePeriod := timePeriod }

/-- `func (ind *baseIndicatorWithTimePeriod) GetTimePeriod() int`
(source lines 168-170). -/
def baseIndicatorWithTimePeriod.GetTimePeriod (ind : baseIndicatorWithTimePeriod) : ℤ :=
  ind.timePeriod

/-- `type baseIndicatorWithFloatBounds struct { *baseIndicator;
*baseFloatBounds }` (source lines 139-142): Go struct embedding, modelled as
explicit composition with the promoted methods forwarded below. -/
structure baseIndicatorWithFloatBounds where
  toBaseIndicator : baseIndicator
  toBaseFloatBounds : baseFloatBounds

/-- `newBaseIndicatorWithFloatBounds(lookbackPeriod int)` (source lines 144-149). -/
def newBaseIndicatorWithFloatBounds (lookbackPeriod : ℤ) : baseIndicatorWithFloatBounds :=
  { toBaseIndicator := newBaseIndicator lookbackPeriod
    toBaseFloatBounds := newBaseFloatBounds }

/-- Promoted method of the embedded `*baseIndicator`. -/
def baseIndicatorWithFloatBounds.ValidFromBar (ind : baseIndicatorWithFloatBounds) : ℤ :=
  ind.toBaseIndicator.ValidFromBar

/-- Promoted method of the embedded `*baseIndicator`. -/
def baseIndicatorWithFloatBounds.GetLookbackPeriod (ind : baseIndicatorWithFloatBounds) : ℤ :=
  ind.toBaseIndicator.GetLookbackPeriod

/-- Promoted method of the embedded `*baseIndicator`. -/
def baseIndicatorWithFloatBounds.Length (ind : baseIndicatorWithFloatBounds) : ℤ :=
  ind.toBaseIndicator.Length

/-- Promoted method of the embedded `*baseFloatBounds`. -/
def baseIndicatorWithFloatBounds.MinValue (ind : baseIndicatorWithFloatBounds) : ℚ :=
  ind.toBaseFloatBounds.MinValue

/-- Promoted method of the embedded `*baseFloatBounds`. -/
def baseIndicatorWithFloatBounds.MaxValue (ind : baseIndicatorWithFloatBounds) : ℚ :=
  ind.toBaseFloatBounds.MaxValue

/-- `type baseIndicatorWithIntBounds struct { *baseIndicator; *baseIntBounds }`
(source lines 151-154). -/
structure baseIndicatorWithIntBounds where
  toBaseIndicator : baseIndicator
  toBaseIntBounds : baseIntBounds

/-- `newBaseIndicatorWithIntBounds(lookbackPeriod int)` (source lines 156-161). -/
def newBaseIndicatorWithIntBounds (lookbackPeriod : ℤ) : baseIndicatorWithIntBounds :=
  { toBaseIndicator := newBaseIndicator lookbackPeriod
    toBaseIntBounds := newBaseIntBounds }

/-- Promoted method of the embedded `*baseIndicator`. -/
def baseIndicatorWithIntBounds.ValidFromBar (ind : baseIndicatorWithIntBounds) : ℤ :=
  ind.toBaseIndicator.ValidFromBar

/-- Promoted method of the embedded `*baseIndicator`. -/
def baseIndicatorWithIntBounds.GetLookbackPeriod (ind : baseIndicatorWithIntBounds) : ℤ :=
  ind.toBaseIndicator.GetLookbackPeriod

/-- Promoted method of the embedded `*baseIndicator`. -/
def baseIndicatorWithIntBounds.Length (ind : baseIndicatorWithIntBounds) : ℤ :=
  ind.toBaseIndicator.Length

/-- Promoted method of the embedded `*baseIntBounds`. -/
def baseIndicatorWithIntBounds.MinValue (ind : baseIndicatorWithIntBounds) : ℤ :=
  ind.toBaseIntBounds.MinValue

/-- Promoted method of the embedded `*baseIntBounds`. -/
def baseIndicatorWithIntBounds.MaxValue (ind : baseIndicatorWithIntBounds) : ℤ :=
  ind.toBaseIntBounds.MaxValue

/-- Modelled from the spec: concrete-indicator construction where a strictly
positive lookback period is required.  The source tree contains only the base
constructor (which stores the period unvalidated) and the shared error value
`ErrLookbackPeriodMustBeGreaterThanZero`; spec sections 4.1 and 7 make the
validation the responsibility of the concrete indicator, using the shared
error kind and rejecting a period outside
`[MinimumLookbackPeriod + 1, MaximumLookbackPeriod]`. -/
def newIndicatorRequiringPositiveLookback (lookbackPeriod : ℤ) :
    Except IndicatorError baseIndicator :=
  if lookbackPeriod < MinimumLookbackPeriod + 1 ∨ MaximumLookbackPeriod < lookbackPeriod then
    .error .ErrLookbackPeriodMustBeGreaterThanZero
  else
    .ok (newBaseIndicator lookbackPeriod)

/-- Go parameter types occurring in the value-available callback signatures. -/
inductive GoType where
  | float64
  | int64
  | dohlcv
  | int
  deriving DecidableEq

/-- `type ValueAvailableActionFloat func(dataItem float64, streamBarIndex int)`
(source line 172), as its parameter-type list. -/
def ValueAvailableActionFloat : List GoType := [.float64, .int]

/-- `type ValueAvailableActionInt func(dataItem int64, streamBarIndex int)`
(source line 173). -/
def ValueAvailableActionInt : List GoType := [.int64, .int]

/-- `type ValueAvailableActionDOHLCV func(dataItem gotrade.DOHLCV,
streamBarIndex int)` (source line 174). -/
def ValueAvailableActionDOHLCV : List GoType := [.dohlcv, .int]

/-- `type ValueAvailableActionBollinger func(dataItemUpperBand float64,
dataItemMiddleBand float64, dataItemLowerBand float64, streamBarIndex int)`
(source line 175). -/
def ValueAvailableActionBollinger : List GoType := [.float64, .float64, .float64, .int]

/-- `type ValueAvailableActionMACD func(dataItemMACD float64, dataItemSignal
float64, dataItemHistogram float64, streamBarIndex int)` (source line 176). -/
def ValueAvailableActionMACD : List GoType := [.float64, .float64, .float64, .int]

/-- `type ValueAvailableActionAroon func(dataItemAroonUp float64,
dataItemAroonDown float64, streamBarIndex int)` (source line 177). -/
def ValueAvailableActionAroon : List GoType := [.float64, .float64, .int]

/-- `type ValueAvailableActionStoch func(dataItemK float64, dataItemD float64,
streamBarIndex int)` (source line 178). -/
def ValueAvailableActionStoch : List GoType := [.float64, .float64, .int]

/-- `type ValueAvailableActionLinearReg func(dataItem float64, slope float64,
intercept float64, streamBarIndex int)` (source line 179). -/
def ValueAvailableActionLinearReg : List GoType := [.float64, .float64, .float64, .int]

/-- The value-available callback type declarations of the source
(lines 172-179), in source order. -/
def valueAvailableActionTypes : List (List GoType) :=
  [ValueAvailableActionFloat, ValueAvailableActionInt, ValueAvailableActionDOHLCV,
   ValueAvailableActionBollinger, ValueAvailableActionMACD, ValueAvailableActionAroon,
   ValueAvailableActionStoch, ValueAvailableActionLinearReg]

/-! ## Helper lemmas about the float64 value set -/

/-- Bridge between the integer power and the natural power of two in `ℚ`. -/
theorem two_zpow_ofNat (n : ℕ) : (2 : ℚ) ^ (n : ℤ) = (2 : ℚ) ^ n :=
  zpow_natCast 2 n

/-- Bridge at the concrete exponent 971. -/
theorem two_zpow_971 : (2 : ℚ) ^ (971 : ℤ) = (2 : ℚ) ^ (971 : ℕ) := by
  rw [show (971 : ℤ) = ((971 : ℕ) : ℤ) from rfl]
  exact zpow_natCast 2 971

/-- The smallest positive float equals the integer power `2 ^ (-1074)`. -/
theorem smallestNonzeroFloat64_eq_zpow :
    smallestNonzeroFloat64 = (2 : ℚ) ^ (-1074 : ℤ) := by
  rw [smallestNonzeroFloat64, zpow_neg, one_div]
  norm_cast

/-- `maxFloat64` is a finite float64 value. -/
theorem maxFloat64_isFiniteFloat64 : isFiniteFloat64 maxFloat64 := by
  refine ⟨2 ^ 53 - 1, 971, by norm_num, by norm_num, by norm_num, ?_⟩
  rw [maxFloat64]
  push_cast
  norm_num

/-- `smallestNonzeroFloat64` is a finite float64 value. -/
theorem smallestNonzeroFloat64_isFiniteFloat64 : isFiniteFloat64 smallestNonzeroFloat64 := by
  refine ⟨1, -1074, by norm_num, by norm_num, by norm_num, ?_⟩
  rw [smallestNonzeroFloat64_eq_zpow]
  push_cast
  ring

/-- Every finite float64 value is at most `maxFloat64`. -/
theorem isFiniteFloat64_le_maxFloat64 {q : ℚ} (hq : isFiniteFloat64 q) :
    q ≤ maxFloat64 := by
  obtain ⟨m, e, hm, _he1, he2, rfl⟩ := hq
  have hpow : (0 : ℚ) < (2 : ℚ) ^ e := zpow_pos (by norm_num) e
  have hmq : (m : ℚ) ≤ (2 : ℚ) ^ (53 : ℕ) - 1 := by
    have h := (abs_le.mp hm).2
    calc (m : ℚ) ≤ ((2 ^ 53 - 1 : ℤ) : ℚ) := by exact_mod_cast h
      _ = (2 : ℚ) ^ (53 : ℕ) - 1 := by push_cast; ring
  calc (m : ℚ) * (2 : ℚ) ^ e
      ≤ ((2 : ℚ) ^ (53 : ℕ) - 1) * (2 : ℚ) ^ e :=
        mul_le_mul_of_nonneg_right hmq hpow.le
    _ ≤ ((2 : ℚ) ^ (53 : ℕ) - 1) * (2 : ℚ) ^ (971 : ℤ) := by
        refine mul_le_mul_of_nonneg_left (zpow_le_zpow_right₀ one_le_two he2) ?_
        norm_num
    _ = maxFloat64 := by
        rw [two_zpow_971, maxFloat64]

/-- Every positive finite float64 value is at least `smallestNonzeroFloat64`. -/
theorem smallestNonzeroFloat64_le_of_pos {q : ℚ} (hq : isFiniteFloat64 q)
    (h0 : 0 < q) : smallestNonzeroFloat64 ≤ q := by
  obtain ⟨m, e, _hm, he1, _he2, rfl⟩ := hq
  have hpow : (0 : ℚ) < (2 : ℚ) ^ e := zpow_pos (by norm_num) e
  have hm0 : (0 : ℚ) < (m : ℚ) := by
    by_contra hcon
    push_neg at hcon
    nlinarith
  have hm1 : (1 : ℚ) ≤ (m : ℚ) := by
    have hmz : (0 : ℤ) < m := by exact_mod_cast hm0
    exact_mod_cast hmz
  calc smallestNonzeroFloat64 = (2 : ℚ) ^ (-1074 : ℤ) := smallestNonzeroFloat64_eq_zpow
    _ ≤ (2 : ℚ) ^ e := zpow_le_zpow_right₀ one_le_two he1
    _ = 1 * (2 : ℚ) ^ e := (one_mul _).symm
    _ ≤ (m : ℚ) * (2 : ℚ) ^ e := mul_le_mul_of_nonneg_right hm1 hpow.le

/-! ## Claim theorems -/

/-- C2: the float bounds tracker is seeded with `min = maxFloat64`, the largest
finite float64, and `max = smallestNonzeroFloat64`, the smallest positive
float64 (positive and minimal among positive finite floats); the integer
bounds tracker is seeded with `min = maxInt64 = 2^63 - 1` and
`max = minInt64 = -2^63`, the extreme int64 values. -/
theorem bounds_seeds_are_extremal_representables (q r : ℚ)
    (hq : isFiniteFloat64 q) (hr : isFiniteFloat64 r) (hr0 : 0 < r) :
    newBaseFloatBounds.MinValue = maxFloat64 ∧
    newBaseFloatBounds.MaxValue = smallestNonzeroFloat64 ∧
    isFiniteFloat64 maxFloat64 ∧ q ≤ maxFloat64 ∧
    0 < smallestNonzeroFloat64 ∧ isFiniteFloat64 smallestNonzeroFloat64 ∧
    smallestNonzeroFloat64 ≤ r ∧
    newBaseIntBounds.MinValue = maxInt64 ∧
    newBaseIntBounds.MaxValue = minInt64 :=
  ⟨rfl, rfl, maxFloat64_isFiniteFloat64, isFiniteFloat64_le_maxFloat64 hq,
   by rw [smallestNonzeroFloat64]; norm_num,
   smallestNonzeroFloat64_isFiniteFloat64,
   smallestNonzeroFloat64_le_of_pos hr hr0, rfl, rfl⟩

/-- Witness for C2 at the concrete representable values `q = 0`, `r = 1`. -/
theorem bounds_seeds_are_extremal_representables_witness :
    smallestNonzeroFloat64 ≤ 1 ∧ (0 : ℚ) ≤ maxFloat64 := by
  have hq : isFiniteFloat64 0 := ⟨0, 0, by norm_num⟩
  have hr : isFiniteFloat64 1 := ⟨1, 0, by norm_num⟩
  have h := bounds_seeds_are_extremal_representables 0 1 hq hr one_pos
  exact ⟨h.2.2.2.2.2.2.1, h.2.2.2.1⟩

/-- C1 (failing input, float variant): applying the spec update rule to a
freshly constructed float bounds tracker with first value `0` leaves the max
bound stuck at the positive seed `smallestNonzeroFloat64` instead of
tightening it to `0` (the seed `math.SmallestNonzeroFloat64` is positive, so
`0 > max` is false); the min bound does tighten.  The integer variant, whose
max seed is `math.MinInt64`, tightens both at the same input. -/
theorem firstValue_zero_leaves_float_max_at_seed :
    (newBaseFloatBounds.update 0).MinValue = 0 ∧
    (newBaseFloatBounds.update 0).MaxValue = smallestNonzeroFloat64 ∧
    (newBaseFloatBounds.update 0).MaxValue ≠ 0 ∧
    (newBaseIntBounds.update 0).MinValue = 0 ∧
    (newBaseIntBounds.update 0).MaxValue = 0 := by
  have h1 : (0 : ℚ) < maxFloat64 := by rw [maxFloat64]; norm_num
  have h2 : ¬ (smallestNonzeroFloat64 < (0 : ℚ)) := by
    rw [smallestNonzeroFloat64]; norm_num
  have h3 : smallestNonzeroFloat64 ≠ 0 := by
    rw [smallestNonzeroFloat64]; norm_num
  have h4 : (0 : ℤ) < maxInt64 := by rw [maxInt64]; norm_num
  have h5 : minInt64 < (0 : ℤ) := by rw [minInt64]; norm_num
  refine ⟨?_, ?_, ?_, ?_, ?_⟩ <;>
    simp [baseFloatBounds.update, baseIntBounds.update, newBaseFloatBounds,
      newBaseIntBounds, baseFloatBounds.MinValue, baseFloatBounds.MaxValue,
      baseIntBounds.MinValue, baseIntBounds.MaxValue, h1, h2, h3, h4, h5]

/-- C3: for every valid lookback period `p` with
`0 < p ≤ MaximumLookbackPeriod`, the freshly constructed base state reports
`ValidFromBar() = -1` and `Length() = 0`. -/
theorem fresh_indicator_validity_and_length (p : ℤ) (_h1 : 0 < p)
    (_h2 : p ≤ MaximumLookbackPeriod) :
    (newBaseIndicator p).ValidFromBar = -1 ∧ (newBaseIndicator p).Length = 0 :=
  ⟨rfl, rfl⟩

/-- Witness for C3 at the concrete period `p = 3`. -/
theorem fresh_indicator_validity_and_length_witness :
    (0 : ℤ) < 3 ∧ (3 : ℤ) ≤ MaximumLookbackPeriod ∧
      (newBaseIndicator 3).ValidFromBar = -1 ∧ (newBaseIndicator 3).Length = 0 := by
  have h1 : (0 : ℤ) < 3 := by norm_num
  have h2 : (3 : ℤ) ≤ MaximumLookbackPeriod := by rw [MaximumLookbackPeriod]; norm_num
  exact ⟨h1, h2, fresh_indicator_validity_and_length 3 h1 h2⟩

/-- C4: constructing an indicator that requires a strictly positive lookback
period with `lookbackPeriod ≤ 0` fails with the
`ErrLookbackPeriodMustBeGreaterThanZero` error value; it never succeeds
silently (the result is an error, not an `ok`). -/
theorem nonpositive_lookback_construction_fails (p : ℤ) (hp : p ≤ 0) :
    newIndicatorRequiringPositiveLookback p =
      Except.error IndicatorError.ErrLookbackPeriodMustBeGreaterThanZero := by
  have hc : p < MinimumLookbackPeriod + 1 ∨ MaximumLookbackPeriod < p := by
    left
    rw [MinimumLookbackPeriod]
    omega
  rw [newIndicatorRequiringPositiveLookback, if_pos hc]

/-- Witness for C4 at the concrete period `p = 0`. -/
theorem nonpositive_lookback_construction_fails_witness :
    (0 : ℤ) ≤ 0 ∧
      newIndicatorRequiringPositiveLookback 0 =
        Except.error IndicatorError.ErrLookbackPeriodMustBeGreaterThanZero :=
  ⟨le_refl 0, nonpositive_lookback_construction_fails 0 (le_refl 0)⟩

/-- C5 (counterexample): the source does not declare seven value-available
callback shapes: it declares eight named callback types, and among them only
five structurally distinct parameter-type lists occur (the band, MACD and
linear-regression triplets coincide, as do the Aroon and stochastic
dual-lines), so neither count equals seven. -/
theorem callback_shape_count_not_seven :
    valueAvailableActionTypes.length ≠ 7 ∧
      valueAvailableActionTypes.dedup.length ≠ 7 := by
  decide

/-- C5 (amended): exactly eight value-available callback types are declared —
float, integer, full bar, band-triplet, MACD-triplet, Aroon dual-line,
stochastic dual-line, and slope/intercept-triplet — of which five parameter
shapes are structurally distinct. -/
theorem callback_shape_count_eight_with_five_distinct :
    valueAvailableActionTypes.length = 8 ∧
      valueAvailableActionTypes.dedup.length = 5 := by
  decide

/-- C6: for every lookback period `p`, each composite base (float flavour and
integer flavour) answers the full union of the base-state contract and the
matching bounds contract: `ValidFromBar() = -1`, `GetLookbackPeriod() = p`,
`Length() = 0`, and the fresh bounds seeds. -/
theorem composite_base_exposes_union_of_contracts (p : ℤ) :
    (newBaseIndicatorWithFloatBounds p).ValidFromBar = -1 ∧
    (newBaseIndicatorWithFloatBounds p).GetLookbackPeriod = p ∧
    (newBaseIndicatorWithFloatBounds p).Length = 0 ∧
    (newBaseIndicatorWithFloatBounds p).MinValue = maxFloat64 ∧
    (newBaseIndicatorWithFloatBounds p).MaxValue = smallestNonzeroFloat64 ∧
    (newBaseIndicatorWithIntBounds p).ValidFromBar = -1 ∧
    (newBaseIndicatorWithIntBounds p).GetLookbackPeriod = p ∧
    (newBaseIndicatorWithIntBounds p).Length = 0 ∧
    (newBaseIndicatorWithIntBounds p).MinValue = maxInt64 ∧
    (newBaseIndicatorWithIntBounds p).MaxValue = minInt64 :=
  ⟨rfl, rfl, rfl, rfl, rfl, rfl, rfl, rfl, rfl, rfl⟩

/-- C7: the process-wide configuration constants are
`MinimumLookbackPeriod = 0` and `MaximumLookbackPeriod = 100000`. -/
theorem lookback_period_constant_values :
    MinimumLookbackPeriod = 0 ∧ MaximumLookbackPeriod = 100000 :=
  ⟨rfl, rfl⟩

/-- C8: for every integer `t`, constructing the time-period decorator with `t`
and reading it back through `GetTimePeriod()` returns exactly `t`. -/
theorem timePeriod_roundtrip (t : ℤ) :
    (newBaseIndicatorWithTimePeriod t).GetTimePeriod = t :=
  rfl

/-- C9: for a freshly constructed bounds tracker of either variant, before any
value is recorded, `MinValue() > MaxValue()`: the no-value-yet state is
observable as inverted bounds, so the `min ≤ max` invariant does not hold
yet. -/
theorem fresh_bounds_inverted :
    newBaseFloatBounds.MinValue > newBaseFloatBounds.MaxValue ∧
    newBaseIntBounds.MinValue > newBaseIntBounds.MaxValue := by
  constructor
  · show maxFloat64 > smallestNonzeroFloat64
    rw [maxFloat64, smallestNonzeroFloat64]
    norm_num
  · show maxInt64 > minInt64
    rw [maxInt64, minInt64]
    norm_num

/-- C10: base-state construction is a total function with no validation or
clamping: for every integer `p` — in particular `p ≤ 0` and
`p > MaximumLookbackPeriod` — it succeeds and stores `p` verbatim, with the
fresh sentinel and counter values. -/
theorem base_construction_total_and_unvalidated (p : ℤ) :
    (newBaseIndicator p).GetLookbackPeriod = p ∧
    (newBaseIndicator p).ValidFromBar = -1 ∧
    (newBaseIndicator p).Length = 0 :=
  ⟨rfl, rfl, rfl⟩
